import Mathlib

/- Shallow embedding of the real-time aggregation-and-broadcast engine of the
FreePBX call-center dashboard: the `WebSocketHandler` class
(server/services/websocketHandler.js), the `FreePBXService` class
(server/services/freepbxService.js) and the Express/Socket.IO wiring
(server/index.js).

Modelling conventions, used throughout:
- Timestamps are integer milliseconds since the Unix epoch (the value of
  `Date.now()`).  `Date.prototype.toISOString()` is a bijective rendering of
  that integer, so ISO-string timestamps are modelled by the integer itself.
- `Math.random()` is modelled by an explicit stream `s : Nat -> Rat` of draws,
  consumed in the exact order the source evaluates its `Math.random()` calls;
  a valid stream has every draw in [0, 1).
- JS numbers that the program only ever adds, subtracts, compares or floors
  are modelled as `Int`/`Rat` with exact arithmetic.  `Math.floor` on a
  quotient of integers is `Int.fdiv`.  The literal `0.2` in the
  low-availability rule is modelled as the exact rational 1/5 (no claim
  exercises the float-rounding boundary of that comparison).
- Absent / `undefined` / `null` JS fields are modelled with `Option`;
  `x || default` on such a field is `Option.getD` (the source never relies on
  the falsiness of `""` or `0` where it differs from absence).
- The Socket.IO `io.emit` side effects are modelled by returning the emitted
  payloads; a returned `[]` / `none` means nothing was emitted. -/

namespace Dashboard

/-- Milliseconds since the Unix epoch. -/
abbrev TimeMs := Int

/-- The stream of `Math.random()` results, in evaluation order. -/
abbrev RandS := Nat → ℚ

/-- A valid random stream: every draw lies in [0, 1), as `Math.random()`
guarantees. -/
def ValidRand (s : RandS) : Prop := ∀ i, 0 ≤ s i ∧ s i < 1

/-- `Math.floor(r * k)` for a random draw `r`, computed on the numerator and
denominator so that the kernel can evaluate it: for `r = num/den` (den > 0)
we have `floor (r * k) = (num * k).fdiv den`. -/
def jsFloorMul (r : ℚ) (k : Int) : Int := Int.fdiv (r.num * k) (r.den : Int)

/-- `Math.floor(r * k + c)` (used for the synthetic phone numbers
`Math.floor(Math.random() * 9000000 + 1000000)`). -/
def jsFloorMulAdd (r : ℚ) (k c : Int) : Int :=
  Int.fdiv (r.num * k + c * (r.den : Int)) (r.den : Int)

/-- `new Date(now - r * k).getTime()`: the `Date` constructor truncates the
non-integer epoch value toward zero; for `now ≥ r * k ≥ 0` this is
`now - ceil (r * k)`, i.e. `now + floor (-(r * k))`. -/
def jsDateSub (now : TimeMs) (r : ℚ) (k : Int) : TimeMs :=
  now + Int.fdiv (-(r.num * k)) (r.den : Int)

/-- The comparison `r > a / b` (for b > 0) on a random draw, e.g.
`Math.random() > 0.7`, computed on the numerator and denominator. -/
def ratGtFrac (r : ℚ) (a b : Int) : Bool := decide (a * (r.den : Int) < r.num * b)

/-- `arr[Math.floor(r * arr.length)]` for a draw `r ∈ [0, 1)`. -/
def jsIndex (l : List String) (r : ℚ) : String :=
  l.getD (jsFloorMul r (l.length : Int)).toNat ""

/-- JS `str.toLowerCase()` restricted to the ASCII names it is applied to. -/
def lowerChars : List Char → List Char
  | [] => []
  | c :: rest => c.toLower :: lowerChars rest

/-- JS `name.replace(' ', '.')`: `String.prototype.replace` with a string
pattern replaces only the first occurrence. -/
def replaceFirstSpace : List Char → List Char
  | [] => []
  | c :: rest => if c == ' ' then '.' :: rest else c :: replaceFirstSpace rest

/-- JS `i.toString().padStart(4, '0')`. -/
def padStart4 (t : String) : String :=
  String.mk (List.replicate (4 - t.length) '0') ++ t

/-- JS `queue.id.replace('queue_', '700')`: every generated queue id starts
with `"queue_"` (6 characters), so this is prefix replacement. -/
def replaceQueuePrefix (t : String) : String :=
  if t.data.take 6 = "queue_".data then "700" ++ String.mk (t.data.drop 6) else t

/- ------------------------------------------------------------------ -/
/- Canonical data model: the dashboard-format records produced by
   FreePBXService and consumed by WebSocketHandler.                    -/
/- ------------------------------------------------------------------ -/

/-- The denormalized `currentCall` summary attached to a busy agent. -/
structure CurrentCall where
  status : String
  phoneNumber : String
  callerName : Option String
  direction : String
  duration : Int
  queueName : String
  queueId : String
  deriving DecidableEq, Repr

/-- Dashboard-format agent (the shape produced by both
`FreePBXService.getAgents` mapping and `getMockAgents`). -/
structure Agent where
  id : String
  name : String
  email : String
  status : String
  statusReason : String
  extension : String
  department : String
  departmentId : String
  departments : List String
  currentCall : Option CurrentCall
  lastStatusChange : TimeMs
  deviceState : String
  channelState : String
  deriving DecidableEq, Repr

/-- Dashboard-format queue.  The connector mapping also emits duplicate alias
fields (`longestWaitTime`, `avgWaitTime`, `callsAnswered`, `callsAbandoned`,
`agentsBusy`, `agentsPaused`, `wrapuptime`) that no server-side consumer
reads; they are omitted here. -/
structure Queue where
  id : String
  name : String
  extension : String
  waitingCalls : Int
  longestWait : Int
  averageWait : Int
  totalCalls : Int
  answeredCalls : Int
  abandonedCalls : Int
  serviceLevel : ℚ
  agents : Int
  agentsAvailable : Int
  agentsOnCall : Int
  status : String
  strategy : String
  timeout : Int
  retry : Int
  deriving DecidableEq, Repr

/-- Dashboard-format active call (the shape produced by the
`getActiveCalls` mapping and by `getMockCalls`).  The JS fields `from`/`to`
are Lean keywords and are rendered `from_`/`to_`.  `status` is `Option`
because the mock generator does not set it while the connector mapping does. -/
structure Call where
  id : String
  uniqueid : Option String
  channel : Option String
  direction : String
  from_ : String
  fromName : Option String
  to_ : String
  toName : Option String
  agentId : String
  agentName : String
  agentExtension : String
  duration : Int
  state : String
  status : Option String
  startTime : TimeMs
  queueName : String
  queueId : String
  bridgedChannel : Option String
  context : String
  priority : String
  application : Option String
  deriving DecidableEq, Repr

/-- An entry of the in-memory active-calls map, as built by
`handleCallStarted` (the `callInfo` object). -/
structure CallInfo where
  id : String
  uniqueid : Option String
  phoneNumber : String
  callerName : Option String
  extension : Option String
  direction : String
  startTime : TimeMs
  duration : Int
  queueName : String
  queueId : String
  deriving DecidableEq, Repr

/-- The `activeCallsMap` (a JS `Map` keyed by call id), modelled as an
insertion-ordered association list. -/
abbrev Registry := List (String × CallInfo)

/-- An alert object pushed by `checkAndEmitAlerts`. -/
structure Alert where
  type : String
  title : String
  message : String
  queueId : Option String
  timestamp : TimeMs
  deriving DecidableEq, Repr

structure AgentCounts where
  total : Int
  available : Int
  busy : Int
  offline : Int
  away : Int
  paused : Int
  deriving DecidableEq, Repr

structure CallCounts where
  active : Int
  waiting : Int
  answered : Int
  abandoned : Int
  deriving DecidableEq, Repr

structure QueueAggregates where
  total : Int
  averageWaitTime : ℚ
  longestWaitTime : Int
  deriving DecidableEq, Repr

/-- The payload of `getCallCenterStats`. -/
structure Stats where
  agents : AgentCounts
  calls : CallCounts
  queues : QueueAggregates
  timestamp : TimeMs
  deriving DecidableEq, Repr

/- ------------------------------------------------------------------ -/
/- ActiveCallRegistry: the discrete-event handlers of WebSocketHandler. -/
/- ------------------------------------------------------------------ -/

/-- Payload of a `call.started` connector event (`callData`). -/
structure CallStartEvent where
  uniqueid : Option String
  callerid : Option String
  callername : Option String
  extension : Option String
  direction : Option String
  queueName : Option String
  queueId : Option String
  deriving DecidableEq, Repr

/-- Payload of a `call.ended` connector event. -/
structure CallEndEvent where
  uniqueid : Option String
  disposition : Option String
  deriving DecidableEq, Repr

/-- The `call:ended` broadcast payload: the removed record spread together
with `endTime` and `disposition`. -/
structure CallEndedEmit where
  call : CallInfo
  endTime : TimeMs
  disposition : String
  deriving DecidableEq, Repr

/-- JS `Map.prototype.set`: replace in place if the key exists (JS maps keep
insertion order), otherwise append. -/
def mapSet (m : Registry) (k : String) (v : CallInfo) : Registry :=
  if m.any (fun p => p.1 == k) then
    m.map (fun p => if p.1 == k then (k, v) else p)
  else m ++ [(k, v)]

/-- `WebSocketHandler.handleCallStarted`: build the `callInfo` record (id
falls back to a generated `call_<Date.now()>` key when the event carries no
`uniqueid`) and `set` it into the map.  Returns the new map and the
`call:started` broadcast payload.  The narrow agent-refresh broadcast that
follows when `extension` is set is a separate fetch, not modelled here. -/
def handleCallStarted (m : Registry) (ev : CallStartEvent) (now : TimeMs) :
    Registry × CallInfo :=
  let callInfo : CallInfo :=
    { id := ev.uniqueid.getD ("call_" ++ toString now)
      uniqueid := ev.uniqueid
      phoneNumber := ev.callerid.getD "Unknown"
      callerName := ev.callername
      extension := ev.extension
      direction := ev.direction.getD "unknown"
      startTime := now
      duration := 0
      queueName := ev.queueName.getD "Direct Call"
      queueId := ev.queueId.getD "direct" }
  (mapSet m callInfo.id callInfo, callInfo)

/-- The match test of the `handleCallEnded` loop:
`call.uniqueid === callData.uniqueid || call.id === callData.uniqueid`. -/
def endMatches (c : CallInfo) (u : Option String) : Bool :=
  c.uniqueid == u || some c.id == u

/-- The `for ... of entries()` loop of `handleCallEnded`: find the first
entry matching the event identifier and delete it (remaining entries keep
their order); return the removed value, if any, and the resulting map. -/
def findRemove (u : Option String) : Registry → Option CallInfo × Registry
  | [] => (none, [])
  | p :: rest =>
    if endMatches p.2 u then (some p.2, rest)
    else
      let r := findRemove u rest
      (r.1, p :: r.2)

/-- `WebSocketHandler.handleCallEnded`: remove the first matching entry,
recompute its final duration as `floor((now - startTime) / 1000)` and emit
the `call:ended` payload; with no match, nothing is removed and nothing is
emitted.  (The follow-up narrow agent-refresh broadcast is not modelled.) -/
def handleCallEnded (m : Registry) (ev : CallEndEvent) (now : TimeMs) :
    Registry × Option CallEndedEmit :=
  match findRemove ev.uniqueid m with
  | (none, _) => (m, none)
  | (some c, m2) =>
    let removed : CallInfo := { c with duration := Int.fdiv (now - c.startTime) 1000 }
    (m2, some { call := removed, endTime := now,
                disposition := ev.disposition.getD "ANSWERED" })

/-- `WebSocketHandler.updateCallDurations`: refresh every registry entry's
duration to `floor((now - startTime) / 1000)`. -/
def updateCallDurations (m : Registry) (now : TimeMs) : Registry :=
  m.map (fun p => (p.1, { p.2 with duration := Int.fdiv (now - p.2.startTime) 1000 }))

/-- `WebSocketHandler.getActiveCallForUser`: first registry value whose
`extension` or `id` equals the given user id, with its duration refreshed.
(The source also writes the refreshed duration back into the stored entry;
no modelled claim observes that write-back.) -/
def getActiveCallForUser (m : Registry) (userId : Option String) (now : TimeMs) :
    Option CallInfo :=
  match m.find? (fun p => p.2.extension == userId || some p.2.id == userId) with
  | some p => some { p.2 with duration := Int.fdiv (now - p.2.startTime) 1000 }
  | none => none

/- ------------------------------------------------------------------ -/
/- AlertEvaluator: WebSocketHandler.checkAndEmitAlerts.                -/
/- ------------------------------------------------------------------ -/

/-- The mutable alert-evaluation state of the handler: `this.lastAlertCheck`
(initialized to the construction time). -/
structure AlertState where
  lastAlertCheck : TimeMs
  deriving DecidableEq, Repr

/-- Truthiness of `freepbxService.connectorUrl` and the value of
`freepbxService.useMockData`, read by the connectivity alert rule. -/
structure ConnectorFlags where
  connectorUrlPresent : Bool
  useMockData : Bool
  deriving DecidableEq, Repr

/-- The two per-queue alert rules, pushed in source order: long wait
(`longestWait > 300`, wait reported in whole minutes) then high volume
(`waitingCalls > 10`). -/
def queueAlerts (now : TimeMs) (q : Queue) : List Alert :=
  (if 300 < q.longestWait then
    [{ type := "warning", title := "Long Wait Time"
       message := "Queue \"" ++ q.name ++ "\" has calls waiting " ++
         toString (Int.fdiv q.longestWait 60) ++ " minutes"
       queueId := some q.id, timestamp := now }]
   else []) ++
  (if 10 < q.waitingCalls then
    [{ type := "warning", title := "High Queue Volume"
       message := "Queue \"" ++ q.name ++ "\" has " ++ toString q.waitingCalls ++
         " waiting calls"
       queueId := some q.id, timestamp := now }]
   else [])

/-- `agents.filter(a => a.status === st).length` (also the value the
status-count reduce of `getCallCenterStats` produces for key `st`). -/
def countStatus (agents : List Agent) (st : String) : Int :=
  ((agents.filter (fun a => a.status == st)).length : Int)

/-- The low-availability rule: `totalAgents > 0` and fewer than 20% of
agents available. -/
def availabilityAlerts (now : TimeMs) (agents : List Agent) : List Alert :=
  let totalAgents : Int := (agents.length : Int)
  let availableAgents : Int := countStatus agents "available"
  if 0 < totalAgents ∧ (availableAgents : ℚ) < (totalAgents : ℚ) * (1 / 5) then
    [{ type := "error", title := "Low Agent Availability"
       message := "Only " ++ toString availableAgents ++ " of " ++
         toString totalAgents ++ " agents are available"
       queueId := none, timestamp := now }]
  else []

/-- The connectivity rule:
`!this.freepbxService.connectorUrl || this.freepbxService.useMockData`. -/
def connectivityAlerts (now : TimeMs) (svc : ConnectorFlags) : List Alert :=
  if !svc.connectorUrlPresent || svc.useMockData then
    [{ type := "error", title := "Connector Offline"
       message := "FreePBX connector is not responding - showing demo data"
       queueId := none, timestamp := now }]
  else []

/-- The alert list built by one (window-eligible) run of the rules, in push
order: per-queue rules, then availability, then connectivity. -/
def computeAlerts (now : TimeMs) (queues : List Queue) (agents : List Agent)
    (svc : ConnectorFlags) : List Alert :=
  (queues.flatMap (queueAlerts now)) ++ availabilityAlerts now agents ++
    connectivityAlerts now svc

/-- `WebSocketHandler.checkAndEmitAlerts`: inside the 30000 ms window of
`lastAlertCheck` it returns early (nothing emitted, state unchanged);
otherwise it stamps `lastAlertCheck := now` and runs the rules.  The first
component is the emitted `dashboard:alerts` payload (`[]` meaning nothing
was emitted, matching the `alerts.length > 0` guard on `io.emit`). -/
def checkAndEmitAlerts (st : AlertState) (now : TimeMs) (queues : List Queue)
    (agents : List Agent) (svc : ConnectorFlags) : List Alert × AlertState :=
  if now - st.lastAlertCheck < 30000 then ([], st)
  else (computeAlerts now queues agents svc, { lastAlertCheck := now })

/- ------------------------------------------------------------------ -/
/- FreePBXService: status normalization, aggregated stats, mock data.  -/
/- ------------------------------------------------------------------ -/

/-- `FreePBXService.mapAsteriskStatusToStandard`: fixed lookup from the
Asterisk device/channel vocabulary to the four dashboard statuses (the
explicit `unknown`/`invalid`/`unreachable` cases and the default all map to
`offline`). -/
def mapAsteriskStatusToStandard (status : Option String) : String :=
  match status with
  | none => "offline"
  | some st =>
    let s := String.mk (lowerChars st.data)
    if s == "not_inuse" || s == "available" || s == "idle" || s == "free" then
      "available"
    else if s == "inuse" || s == "busy" || s == "ringing" || s == "ringinuse" then
      "busy"
    else if s == "unavailable" || s == "paused" || s == "dnd" then "away"
    else "offline"

/-- The membership filter of the queue-count recomputation:
`agent.departments?.includes(queue.id) || agent.departmentId === queue.id ||
agent.department === queue.name`. -/
def queueMemberAgents (agents : List Agent) (q : Queue) : List Agent :=
  agents.filter (fun a =>
    a.departments.contains q.id || a.departmentId == q.id || a.department == q.name)

/-- The per-queue mutation of `getCallCenterStats` (and of the `/api/queues`
route): recompute each agent-derived count from the fresh agent list when,
and only when, the upstream value is exactly zero. -/
def updateQueueAgentCounts (agents : List Agent) (q : Queue) : Queue :=
  let queueAgents := queueMemberAgents agents q
  let q1 := if q.agents = 0 then
      { q with agents := (queueAgents.length : Int) }
    else q
  let q2 := if q.agentsAvailable = 0 then
      { q1 with agentsAvailable :=
          ((queueAgents.filter (fun a => a.status == "available")).length : Int) }
    else q1
  if q.agentsOnCall = 0 then
    { q2 with agentsOnCall :=
        ((queueAgents.filter (fun a => a.currentCall.isSome)).length : Int) }
  else q2

/-- `FreePBXService.getCallCenterStats`, as a function of the results of its
three internal fetches: first the per-queue count recomputation (mutating
only the local queue list, which is discarded after aggregation), then the
aggregates.  The average-wait divisor is `queues.length || 1` and the
longest wait is `Math.max(...longestWaits, 0)`. -/
def getCallCenterStats (agents : List Agent) (queues : List Queue)
    (calls : List Call) (now : TimeMs) : Stats :=
  let queues := queues.map (updateQueueAgentCounts agents)
  let totalWaiting := (queues.map (fun q => q.waitingCalls)).sum
  let totalAnswered := (queues.map (fun q => q.answeredCalls)).sum
  let totalAbandoned := (queues.map (fun q => q.abandonedCalls)).sum
  { agents :=
    { total := (agents.length : Int)
      available := countStatus agents "available"
      busy := countStatus agents "busy"
      offline := countStatus agents "offline"
      away := countStatus agents "away"
      paused := countStatus agents "paused" }
    calls :=
    { active := (calls.length : Int)
      waiting := totalWaiting
      answered := totalAnswered
      abandoned := totalAbandoned }
    queues :=
    { total := (queues.length : Int)
      averageWaitTime := ((queues.map (fun q => q.averageWait)).sum : ℚ) /
        (if queues.length = 0 then (1 : ℚ) else (queues.length : ℚ))
      longestWaitTime := (queues.map (fun q => q.longestWait)).foldr max 0 }
    timestamp := now }

def mockStatuses : List String := ["available", "busy", "away", "offline"]

def mockDepartments : List String :=
  ["Sales Queue", "Support Queue", "Technical Queue", "General Queue"]

def mockNames : List String :=
  ["John Smith", "Sarah Johnson", "Mike Davis", "Emily Brown",
   "David Wilson", "Lisa Anderson", "Tom Martinez", "Jessica Taylor",
   "Chris Garcia", "Amanda White", "Kevin Jones", "Rachel Green"]

/-- The four company names used for a mock agent's current call. -/
def mockCallerNames4 : List String :=
  ["Acme Corp", "Tech Solutions", "Global Inc", "Smith & Associates"]

/-- The nine company names used by `getMockCalls`. -/
def mockCompanyNames : List String :=
  ["Acme Corporation", "Tech Solutions Inc", "Global Enterprises",
   "Smith & Associates", "Johnson LLC", "Anderson Partners",
   "Wilson Industries", "Davis Group", "Brown Holdings"]

/-- The four agent names sampled for a mock call's `agentName`. -/
def mockAgentNames4 : List String :=
  ["John Smith", "Sarah Johnson", "Mike Davis", "Emily Brown"]

/-- `name.toLowerCase().replace(' ', '.') + '@company.com'`. -/
def mockEmail (name : String) : String :=
  String.mk (replaceFirstSpace (lowerChars name.data)) ++ "@company.com"

/-- The body of the `names.map` of `getMockAgents`, one record per (index,
name) pair.  `ix` is the position in the random stream; the draws happen in
source order: status, then (only when status is `busy`, by `&&`
short-circuit) the 0.7 coin and, when it hits, the four current-call draws,
and finally the `lastStatusChange` offset. -/
def mkMockAgents (s : RandS) (now : TimeMs) : List (Nat × String) → Nat → List Agent
  | [], _ => []
  | (i, name) :: rest, ix =>
    let status := jsIndex mockStatuses (s ix)
    let extension := toString (1000 + i)
    let department := mockDepartments.getD (i % mockDepartments.length) ""
    let cc : Option CurrentCall × Nat :=
      if status == "busy" then
        if ratGtFrac (s (ix + 1)) 7 10 then
          (some { status := "active"
                  phoneNumber := "+1555" ++ toString (jsFloorMulAdd (s (ix + 2)) 9000000 1000000)
                  callerName := some (jsIndex mockCallerNames4 (s (ix + 3)))
                  direction := if ratGtFrac (s (ix + 4)) 1 2 then "inbound" else "outbound"
                  duration := jsFloorMul (s (ix + 5)) 600
                  queueName := department
                  queueId := "queue_" ++ toString (i % 4 + 1) }, ix + 6)
        else (none, ix + 2)
      else (none, ix + 1)
    { id := "agent_" ++ toString (i + 1)
      name := name
      email := mockEmail name
      status := status
      statusReason := if status == "away" then "Break" else ""
      extension := extension
      department := department
      departmentId := "queue_" ++ toString (i % 4 + 1)
      departments := ["queue_" ++ toString (i % 4 + 1)]
      currentCall := cc.1
      lastStatusChange := jsDateSub now (s cc.2) 3600000
      deviceState := "NOT_INUSE"
      channelState := "Available" } :: mkMockAgents s now rest (cc.2 + 1)

/-- `FreePBXService.getMockAgents`. -/
def getMockAgents (s : RandS) (now : TimeMs) : List Agent :=
  mkMockAgents s now mockNames.enum 0

/-- `FreePBXService.getMockQueues`: four fixed queues whose waiting/wait-time
fields are random draws (consumed in literal field order). -/
def getMockQueues (s : RandS) : List Queue :=
  [{ id := "queue_1", name := "Sales Queue", extension := "7001"
     waitingCalls := jsFloorMul (s 0) 5, longestWait := jsFloorMul (s 1) 300
     averageWait := jsFloorMul (s 2) 120
     totalCalls := 150, answeredCalls := 142, abandonedCalls := 8
     serviceLevel := mkRat 947 10
     agents := 8, agentsAvailable := 5, agentsOnCall := 3
     status := "open", strategy := "rrmemory", timeout := 15, retry := 5 },
   { id := "queue_2", name := "Support Queue", extension := "7002"
     waitingCalls := jsFloorMul (s 3) 8, longestWait := jsFloorMul (s 4) 400
     averageWait := jsFloorMul (s 5) 90
     totalCalls := 230, answeredCalls := 220, abandonedCalls := 10
     serviceLevel := mkRat 957 10
     agents := 12, agentsAvailable := 7, agentsOnCall := 5
     status := "open", strategy := "linear", timeout := 20, retry := 3 },
   { id := "queue_3", name := "Technical Queue", extension := "7003"
     waitingCalls := jsFloorMul (s 6) 3, longestWait := jsFloorMul (s 7) 200
     averageWait := jsFloorMul (s 8) 60
     totalCalls := 85, answeredCalls := 82, abandonedCalls := 3
     serviceLevel := mkRat 965 10
     agents := 6, agentsAvailable := 4, agentsOnCall := 2
     status := "open", strategy := "ringall", timeout := 30, retry := 2 },
   { id := "queue_4", name := "General Queue", extension := "7000"
     waitingCalls := jsFloorMul (s 9) 10, longestWait := jsFloorMul (s 10) 600
     averageWait := jsFloorMul (s 11) 180
     totalCalls := 320, answeredCalls := 305, abandonedCalls := 15
     serviceLevel := mkRat 953 10
     agents := 15, agentsAvailable := 8, agentsOnCall := 7
     status := "open", strategy := "rrmemory", timeout := 25, retry := 4 }]

/-- The four (id, name) pairs of the local `queues` array of `getMockCalls`. -/
def mockCallQueues : List (String × String) :=
  [("queue_1", "Sales Queue"), ("queue_2", "Support Queue"),
   ("queue_3", "Technical Queue"), ("queue_4", "General Queue")]

/-- The `for (let i = 0; i < activeCount; i++)` loop of `getMockCalls`.
Ternaries like `direction === 'outbound' ? ext : '+1555' + draw` evaluate
`Math.random()` only in the taken branch, so the stream position after a
field depends on the direction; pairs carry (value, next position). -/
def mkMockCalls (s : RandS) (now : TimeMs) : Nat → Nat → Nat → List Call
  | 0, _, _ => []
  | n + 1, i, ix =>
    let direction := jsIndex ["inbound", "outbound", "internal"] (s ix)
    let queue := mockCallQueues.getD (jsFloorMul (s (ix + 1)) 4).toNat ("", "")
    let agentExt : Nat := 1000 + (jsFloorMul (s (ix + 2)) 12).toNat
    let fromP : String × Nat :=
      if direction == "outbound" then (toString agentExt, ix + 3)
      else ("+1555" ++ toString (jsFloorMulAdd (s (ix + 3)) 9000000 1000000), ix + 4)
    let fromNameP : Option String × Nat :=
      if direction == "inbound" then
        (some (jsIndex mockCompanyNames (s fromP.2)), fromP.2 + 1)
      else (none, fromP.2)
    let toP : String × Nat :=
      if direction == "inbound" then (toString agentExt, fromNameP.2)
      else ("+1555" ++ toString (jsFloorMulAdd (s fromNameP.2) 9000000 1000000),
            fromNameP.2 + 1)
    let toNameP : Option String × Nat :=
      if direction == "outbound" then
        (some (jsIndex mockCompanyNames (s toP.2)), toP.2 + 1)
      else (none, toP.2)
    { id := "call_" ++ toString now ++ "_" ++ toString i
      uniqueid := some (toString now ++ "." ++ toString i)
      channel := some ("SIP/" ++ toString agentExt ++ "-0000" ++ padStart4 (toString i))
      direction := direction
      from_ := fromP.1
      fromName := fromNameP.1
      to_ := toP.1
      toName := toNameP.1
      agentId := "agent_" ++ toString (agentExt - 999)
      agentName := jsIndex mockAgentNames4 (s toNameP.2)
      agentExtension := toString agentExt
      duration := jsFloorMul (s (toNameP.2 + 1)) 600
      state := "active"
      status := none
      startTime := jsDateSub now (s (toNameP.2 + 2)) 600000
      queueName := if direction == "internal" then "Direct Call" else queue.2
      queueId := if direction == "internal" then "direct" else queue.1
      bridgedChannel := if direction != "internal" then
          some ("Queue/" ++ replaceQueuePrefix queue.1 ++ "-0000" ++ padStart4 (toString i))
        else none
      context := "from-internal"
      priority := "1"
      application := some (if direction == "internal" then "Dial" else "Queue") }
      :: mkMockCalls s now n (i + 1) (toNameP.2 + 3)

/-- `FreePBXService.getMockCalls`: `activeCount = floor(random()*8) + 2`
synthetic calls. -/
def getMockCalls (s : RandS) (now : TimeMs) : List Call :=
  let activeCount := (jsFloorMul (s 0) 8).toNat + 2
  mkMockCalls s now activeCount 0 1

/- ------------------------------------------------------------------ -/
/- FreePBXService: upstream DTOs, normalization and the fetch wrappers. -/
/- ------------------------------------------------------------------ -/

/-- The `currentCall` sub-object of a connector agent DTO. -/
structure CurrentCallDTO where
  phoneNumber : Option String
  callerName : Option String
  direction : Option String
  duration : Option Int
  queueName : Option String
  queueId : Option String
  deriving DecidableEq, Repr

/-- A connector `/api/agents` element.  Every field the mapping reads is
optional except `extension`, which the connector always supplies and the
mapping uses as the fallback for `id`, `name` and `email`. -/
structure AgentDTO where
  id : Option String
  name : Option String
  email : Option String
  status : Option String
  statusReason : Option String
  extension : String
  department : Option String
  departmentId : Option String
  departments : Option (List String)
  currentCall : Option CurrentCallDTO
  lastStatusChange : Option TimeMs
  deviceState : Option String
  channelState : Option String
  deriving DecidableEq, Repr

/-- JS `a || b` where `a` is a string that may be empty (falsy). -/
def jsOrS (a b : String) : String := if a == "" then b else a

/-- The element mapping of `getAgents`.  The `wsHandler` reference is always
set in the deployed server, so the enrichment branch only tests
`agent.status === 'busy' && agent.currentCall` (on the raw DTO fields). -/
def mapAgent (reg : Registry) (now : TimeMs) (agent : AgentDTO) : Agent :=
  let currentCall : Option CurrentCall :=
    if agent.status == some "busy" && agent.currentCall.isSome then
      match getActiveCallForUser reg agent.id now with
      | some callDetails =>
        some { status := "active"
               phoneNumber := callDetails.phoneNumber
               callerName := callDetails.callerName
               direction := callDetails.direction
               duration := callDetails.duration
               queueName := jsOrS callDetails.queueName (agent.department.getD "")
               queueId := jsOrS callDetails.queueId (agent.departmentId.getD "") }
      | none =>
        match agent.currentCall with
        | some c =>
          some { status := "active"
                 phoneNumber := c.phoneNumber.getD "Unknown"
                 callerName := c.callerName
                 direction := c.direction.getD "unknown"
                 duration := c.duration.getD 0
                 queueName := c.queueName.getD (agent.department.getD "")
                 queueId := c.queueId.getD (agent.departmentId.getD "") }
        | none => none
    else none
  { id := agent.id.getD agent.extension
    name := agent.name.getD ("Extension " ++ agent.extension)
    email := agent.email.getD (agent.extension ++ "@pbx.local")
    status := mapAsteriskStatusToStandard agent.status
    statusReason := agent.statusReason.getD ""
    extension := agent.extension
    department := agent.department.getD "Default"
    departmentId := agent.departmentId.getD "default"
    departments := agent.departments.getD [agent.departmentId.getD "default"]
    currentCall := currentCall
    lastStatusChange := agent.lastStatusChange.getD now
    deviceState := agent.deviceState.getD "UNKNOWN"
    channelState := agent.channelState.getD "Available" }

/-- A connector `/api/queues` element. -/
structure QueueDTO where
  id : Option String
  name : Option String
  extension : String
  waitingCalls : Option Int
  longestWait : Option Int
  averageWait : Option Int
  totalCalls : Option Int
  answeredCalls : Option Int
  abandonedCalls : Option Int
  serviceLevel : Option ℚ
  totalAgents : Option Int
  agentsAvailable : Option Int
  agentsOnCall : Option Int
  status : Option String
  strategy : Option String
  timeout : Option Int
  retry : Option Int
  deriving DecidableEq, Repr

/-- The element mapping of `getQueues`. -/
def mapQueue (queue : QueueDTO) : Queue :=
  { id := queue.id.getD queue.extension
    name := queue.name.getD ("Queue " ++ queue.extension)
    extension := queue.extension
    waitingCalls := queue.waitingCalls.getD 0
    longestWait := queue.longestWait.getD 0
    averageWait := queue.averageWait.getD 0
    totalCalls := queue.totalCalls.getD 0
    answeredCalls := queue.answeredCalls.getD 0
    abandonedCalls := queue.abandonedCalls.getD 0
    serviceLevel := queue.serviceLevel.getD 0
    agents := queue.totalAgents.getD 0
    agentsAvailable := queue.agentsAvailable.getD 0
    agentsOnCall := queue.agentsOnCall.getD 0
    status := queue.status.getD "open"
    strategy := queue.strategy.getD "ringall"
    timeout := queue.timeout.getD 15
    retry := queue.retry.getD 5 }

/-- A connector `/api/calls` element (`from`/`to` rendered `from_`/`to_`). -/
structure CallDTO where
  id : Option String
  uniqueid : Option String
  channel : Option String
  direction : Option String
  callerid : Option String
  from_ : Option String
  callerName : Option String
  destination : Option String
  to_ : Option String
  agentId : Option String
  extension : String
  agentName : Option String
  duration : Option Int
  state : Option String
  status : Option String
  startTime : Option TimeMs
  queueName : Option String
  queueId : Option String
  bridgedChannel : Option String
  context : Option String
  priority : Option String
  application : Option String
  deriving DecidableEq, Repr

/-- The element mapping of `getActiveCalls` (`call.id || call.uniqueid` is
undefined when both are absent; that degenerate corner is rendered `""`). -/
def mapCall (now : TimeMs) (call : CallDTO) : Call :=
  { id := call.id.getD (call.uniqueid.getD "")
    uniqueid := call.uniqueid
    channel := call.channel
    direction := call.direction.getD "unknown"
    from_ := call.callerid.getD (call.from_.getD "Unknown")
    fromName := call.callerName
    to_ := call.destination.getD (call.to_.getD "Unknown")
    toName := none
    agentId := call.agentId.getD call.extension
    agentName := call.agentName.getD ("Extension " ++ call.extension)
    agentExtension := call.extension
    duration := call.duration.getD 0
    state := call.state.getD "active"
    status := some (call.status.getD "active")
    startTime := call.startTime.getD now
    queueName := call.queueName.getD "Direct Call"
    queueId := call.queueId.getD "direct"
    bridgedChannel := call.bridgedChannel
    context := call.context.getD "default"
    priority := call.priority.getD "1"
    application := call.application }

/-- The outcome of one `axios` GET: `Except.error` for a network failure or
non-2xx response (axios throws on both), `Except.ok` for a 2xx payload
(a null body, `response.data || []`, is the same as `ok []`). -/
abbrev UpstreamResp (α : Type) := Except Unit (List α)

/-- `FreePBXService.getAgents`: mock data when `useMockData` is set, on a
request failure, or on an empty successful payload; otherwise the mapped
payload. -/
def getAgents (useMockData : Bool) (resp : UpstreamResp AgentDTO)
    (reg : Registry) (s : RandS) (now : TimeMs) : List Agent :=
  if useMockData then getMockAgents s now
  else
    match resp with
    | .error _ => getMockAgents s now
    | .ok agents =>
      if agents.length = 0 then getMockAgents s now
      else agents.map (mapAgent reg now)

/-- `FreePBXService.getQueues`: same fallback structure as `getAgents`. -/
def getQueues (useMockData : Bool) (resp : UpstreamResp QueueDTO)
    (s : RandS) : List Queue :=
  if useMockData then getMockQueues s
  else
    match resp with
    | .error _ => getMockQueues s
    | .ok queues =>
      if queues.length = 0 then getMockQueues s
      else queues.map mapQueue

/-- `FreePBXService.getActiveCalls`: mock data when `useMockData` is set or
the request fails; a successful payload is mapped as-is — unlike `getAgents`
and `getQueues` there is no empty-payload check. -/
def getActiveCalls (useMockData : Bool) (resp : UpstreamResp CallDTO)
    (s : RandS) (now : TimeMs) : List Call :=
  if useMockData then getMockCalls s now
  else
    match resp with
    | .error _ => getMockCalls s now
    | .ok calls => calls.map (mapCall now)

/- ------------------------------------------------------------------ -/
/- BroadcastHub: the polling tick and the /api/queues route.           -/
/- ------------------------------------------------------------------ -/

/-- The payloads emitted by one successful tick, together with the mutated
handler state. -/
structure TickResult where
  agents : List Agent
  queues : List Queue
  calls : List Call
  stats : Stats
  alerts : List Alert
  registry : Registry
  alertState : AlertState
  deriving DecidableEq, Repr

/-- `WebSocketHandler.broadcastUpdates`, as a function of the results of its
four concurrent reads.  The `getCallCenterStats` read performs its own three
fetches (separate service invocations), so its inputs are independent
parameters.  In order: fetch, `updateCallDurations` on the registry, emit
`dashboard:agents` / `dashboard:queues` / `dashboard:calls` /
`dashboard:stats`, then `checkAndEmitAlerts(queues, agents)`.  The fetched
lists are emitted exactly as fetched.  (The catch branch that emits
`dashboard:error` models a failed tick and is outside every modelled
claim.) -/
def broadcastUpdates (reg : Registry) (st : AlertState) (svc : ConnectorFlags)
    (now : TimeMs) (agents : List Agent) (queues : List Queue) (calls : List Call)
    (statsAgents : List Agent) (statsQueues : List Queue) (statsCalls : List Call) :
    TickResult :=
  let reg2 := updateCallDurations reg now
  let stats := getCallCenterStats statsAgents statsQueues statsCalls now
  let alertsSt := checkAndEmitAlerts st now queues agents svc
  { agents := agents, queues := queues, calls := calls, stats := stats
    alerts := alertsSt.1, registry := reg2, alertState := alertsSt.2 }

/-- The `/api/queues` route handler (server/index.js): the fetched queues
with the per-queue count recomputation applied before responding. -/
def apiQueues (agents : List Agent) (queues : List Queue) : List Queue :=
  queues.map (updateQueueAgentCounts agents)

/-- Modelled from the spec (refinement target for the merge step the spec
describes): replace the duration of every fetched call whose identifier
matches a registry entry by the registry-tracked duration
`floor((now - startTime)/1000)`, keeping all other snapshot fields. -/
def mergeRegistryDurationsSpec (reg : Registry) (now : TimeMs)
    (fetched : List Call) : List Call :=
  fetched.map (fun c =>
    match reg.find? (fun p => p.2.id == c.id) with
    | some p => { c with duration := Int.fdiv (now - p.2.startTime) 1000 }
    | none => c)

/- ------------------------------------------------------------------ -/
/- Concrete fixtures used by witnesses and counterexamples.            -/
/- ------------------------------------------------------------------ -/

/-- A registry entry keyed "42". -/
def callInfo42 : CallInfo :=
  { id := "42", uniqueid := some "42", phoneNumber := "+15550100"
    callerName := none, extension := some "1001", direction := "inbound"
    startTime := 0, duration := 0, queueName := "Sales Queue"
    queueId := "queue_1" }

/-- A registry entry keyed "7" (matching nothing the fixtures end). -/
def callInfo7 : CallInfo :=
  { id := "7", uniqueid := some "7", phoneNumber := "+15550200"
    callerName := none, extension := some "1002", direction := "outbound"
    startTime := 0, duration := 0, queueName := "Support Queue"
    queueId := "queue_2" }

def registry42 : Registry := [("42", callInfo42)]

/-- A `call.started` event carrying uniqueid "42". -/
def startEvent42 : CallStartEvent :=
  { uniqueid := some "42", callerid := some "+15550100", callername := none
    extension := some "1001", direction := some "inbound", queueName := none
    queueId := none }

/-- A `call.ended` event carrying uniqueid "42". -/
def endEvent42 : CallEndEvent := { uniqueid := some "42", disposition := none }

/-- A fetched (snapshot) call with id "42" and snapshot duration 5. -/
def fetchedCall42 : Call :=
  { id := "42", uniqueid := some "42", channel := none, direction := "inbound"
    from_ := "+15550100", fromName := none, to_ := "1001", toName := none
    agentId := "agent_1", agentName := "John Smith", agentExtension := "1001"
    duration := 5, state := "active", status := some "active", startTime := 0
    queueName := "Sales Queue", queueId := "queue_1", bridgedChannel := none
    context := "default", priority := "1", application := none }

/-- An available agent belonging to queue_1. -/
def agentQ1 : Agent :=
  { id := "agent_1", name := "John Smith", email := "john.smith@company.com"
    status := "available", statusReason := "", extension := "1000"
    department := "Sales Queue", departmentId := "queue_1"
    departments := ["queue_1"], currentCall := none, lastStatusChange := 0
    deviceState := "NOT_INUSE", channelState := "Available" }

/-- A queue whose upstream agent-derived counts are all zero. -/
def queueZeroCounts : Queue :=
  { id := "queue_1", name := "Sales Queue", extension := "7001"
    waitingCalls := 0, longestWait := 0, averageWait := 0, totalCalls := 0
    answeredCalls := 0, abandonedCalls := 0, serviceLevel := 0, agents := 0
    agentsAvailable := 0, agentsOnCall := 0, status := "open"
    strategy := "ringall", timeout := 15, retry := 5 }

/-- A queue with `longestWait = 400` seconds and nothing else alerting. -/
def queueLongWait400 : Queue := { queueZeroCounts with longestWait := 400 }

/-- A queue at the high-volume boundary: `waitingCalls = 10`. -/
def queueWaiting10 : Queue := { queueZeroCounts with waitingCalls := 10 }

/-- A queue just past the high-volume boundary: `waitingCalls = 11`. -/
def queueWaiting11 : Queue := { queueZeroCounts with waitingCalls := 11 }

/-- Handler state with `lastAlertCheck = 0`. -/
def alertStateZero : AlertState := { lastAlertCheck := 0 }

/-- A service with a configured, non-mock connector. -/
def healthyConnector : ConnectorFlags :=
  { connectorUrlPresent := true, useMockData := false }

/-- The number of "High Queue Volume" alerts in an emitted alert list. -/
def countHighVolume (alerts : List Alert) : Nat :=
  (alerts.filter (fun a => a.title == "High Queue Volume")).length

/- ------------------------------------------------------------------ -/
/- Registry lemmas.                                                    -/
/- ------------------------------------------------------------------ -/

/-- Setting a key that is not present appends the binding. -/
theorem mapSet_of_fresh (m : Registry) (k : String) (v : CallInfo)
    (h : ∀ p ∈ m, p.1 ≠ k) : mapSet m k v = m ++ [(k, v)] := by
  have hany : m.any (fun p => p.1 == k) = false := by
    rw [List.any_eq_false]
    intro p hp
    simpa using h p hp
  simp [mapSet, hany]

/-- Mapping the conditional replacement over entries with other keys is the
identity. -/
theorem map_keyReplace_id (m : Registry) (k : String) (v : CallInfo)
    (h : ∀ p ∈ m, p.1 ≠ k) :
    m.map (fun p => if p.1 == k then (k, v) else p) = m := by
  induction m with
  | nil => rfl
  | cons p rest ih =>
    have hf : (p.1 == k) = false :=
      beq_eq_false_iff_ne.mpr (h p (List.mem_cons_self p rest))
    have hp : ¬ ((p.1 == k) = true) := by simp [hf]
    rw [List.map_cons, if_neg hp, ih (fun q hq => h q (List.mem_cons_of_mem p hq))]

/-- Setting a key that sits (only) at the end of the list replaces that last
binding in place. -/
theorem mapSet_replace_last (m : Registry) (k : String) (v v2 : CallInfo)
    (h : ∀ p ∈ m, p.1 ≠ k) :
    mapSet (m ++ [(k, v)]) k v2 = m ++ [(k, v2)] := by
  have hany : ((m ++ [(k, v)]).any (fun p => p.1 == k)) = true := by
    simp [List.any_append]
  unfold mapSet
  rw [if_pos hany, List.map_append, map_keyReplace_id m k v2 h]
  simp

/-- The removal loop finds nothing when no entry matches. -/
theorem findRemove_no_match (u : Option String) (m : Registry)
    (h : ∀ p ∈ m, endMatches p.2 u = false) : findRemove u m = (none, m) := by
  induction m with
  | nil => rfl
  | cons p rest ih =>
    have hp := h p (List.mem_cons_self p rest)
    simp [findRemove, hp, ih (fun q hq => h q (List.mem_cons_of_mem p hq))]

/-- The removal loop removes exactly the final entry when it alone matches. -/
theorem findRemove_append_match (u : Option String) (m : Registry) (k : String)
    (c : CallInfo) (h : ∀ p ∈ m, endMatches p.2 u = false)
    (hc : endMatches c u = true) :
    findRemove u (m ++ [(k, c)]) = (some c, m) := by
  induction m with
  | nil => simp [findRemove, hc]
  | cons p rest ih =>
    have hp := h p (List.mem_cons_self p rest)
    simp [findRemove, hp, ih (fun q hq => h q (List.mem_cons_of_mem p hq))]

/- ------------------------------------------------------------------ -/
/- C6                                                                  -/
/- ------------------------------------------------------------------ -/

/-- C6: registry key stability — `onCallStarted` with uniqueid "42" followed
immediately (at any `t2 ≥ t1`) by `onCallEnded` with uniqueid "42" removes
exactly one registry entry (the one the start inserted, so the registry
returns to its prior state), and returns that removed record with
`duration = floor((t2 - t1)/1000) ≥ 0`. -/
theorem c6_registry_key_stability (m : Registry) (ev : CallStartEvent)
    (ev2 : CallEndEvent) (t1 t2 : TimeMs)
    (hfresh : ∀ p ∈ m, p.1 ≠ "42" ∧ p.2.id ≠ "42" ∧ p.2.uniqueid ≠ some "42")
    (hu : ev.uniqueid = some "42") (hu2 : ev2.uniqueid = some "42")
    (ht : t1 ≤ t2) :
    (handleCallStarted m ev t1).1.length = m.length + 1 ∧
    (handleCallEnded (handleCallStarted m ev t1).1 ev2 t2).1 = m ∧
    (handleCallEnded (handleCallStarted m ev t1).1 ev2 t2).2 =
      some { call := { (handleCallStarted m ev t1).2 with
                       duration := Int.fdiv (t2 - t1) 1000 }
             endTime := t2
             disposition := ev2.disposition.getD "ANSWERED" } ∧
    0 ≤ Int.fdiv (t2 - t1) 1000 := by
  have hnm : ∀ p ∈ m, endMatches p.2 (some "42") = false := by
    intro p hp
    have h1 := (hfresh p hp).2.1
    have h2 := (hfresh p hp).2.2
    simp [endMatches, beq_eq_false_iff_ne, h1, h2]
  have hstart : handleCallStarted m ev t1 =
      (m ++ [("42", (handleCallStarted m ev t1).2)], (handleCallStarted m ev t1).2) := by
    simp only [handleCallStarted, hu, Option.getD_some]
    rw [mapSet_of_fresh m "42" _ (fun p hp => (hfresh p hp).1)]
  have hc : endMatches (handleCallStarted m ev t1).2 (some "42") = true := by
    simp [handleCallStarted, hu, endMatches]
  refine ⟨?_, ?_, ?_, ?_⟩
  · rw [hstart]
    simp
  · conv_lhs => rw [hstart]
    rw [handleCallEnded, hu2,
      findRemove_append_match (some "42") m "42" _ hnm hc]
  · conv_lhs => rw [hstart]
    rw [handleCallEnded, hu2,
      findRemove_append_match (some "42") m "42" _ hnm hc]
    have hst : (handleCallStarted m ev t1).2.startTime = t1 := by
      simp [handleCallStarted]
    simp [hst]
  · exact Int.fdiv_nonneg (Int.sub_nonneg.mpr ht) (by norm_num)

/-- Witness for C6 at a concrete input: start then end of call "42" over a
one-entry registry, 2500 ms apart. -/
theorem c6_registry_key_stability_witness :
    (handleCallStarted [("7", callInfo7)] startEvent42 1000).1.length =
      [("7", callInfo7)].length + 1 ∧
    (handleCallEnded (handleCallStarted [("7", callInfo7)] startEvent42 1000).1
        endEvent42 3500).1 = [("7", callInfo7)] ∧
    (handleCallEnded (handleCallStarted [("7", callInfo7)] startEvent42 1000).1
        endEvent42 3500).2 =
      some { call := { (handleCallStarted [("7", callInfo7)] startEvent42 1000).2 with
                       duration := Int.fdiv (3500 - 1000) 1000 }
             endTime := 3500
             disposition := endEvent42.disposition.getD "ANSWERED" } ∧
    0 ≤ Int.fdiv (3500 - 1000) 1000 :=
  c6_registry_key_stability [("7", callInfo7)] startEvent42 endEvent42 1000 3500
    (by decide) (by decide) (by decide) (by decide)

/- ------------------------------------------------------------------ -/
/- C8                                                                  -/
/- ------------------------------------------------------------------ -/

/-- C8: a `call.ended` event whose identifier matches no registry entry is a
silent no-op — the registry is unchanged and no `call:ended` broadcast is
emitted (and the handler is total, so no exception is possible). -/
theorem c8_call_ended_no_match (m : Registry) (ev : CallEndEvent) (now : TimeMs)
    (h : ∀ p ∈ m, endMatches p.2 ev.uniqueid = false) :
    handleCallEnded m ev now = (m, none) := by
  rw [handleCallEnded, findRemove_no_match ev.uniqueid m h]

/-- Witness for C8 at a concrete input: ending call "42" against a registry
holding only call "7". -/
theorem c8_call_ended_no_match_witness :
    handleCallEnded [("7", callInfo7)] endEvent42 5000 = ([("7", callInfo7)], none) :=
  c8_call_ended_no_match [("7", callInfo7)] endEvent42 5000 (by decide)

/- ------------------------------------------------------------------ -/
/- C9                                                                  -/
/- ------------------------------------------------------------------ -/

/-- C9: two `call.started` events with the same uniqueid "42" leave exactly
one registry entry under that key — the second `Map.set` overwrites the
first in place, and the surviving record has `startTime = t2` (hence
duration 0 at insertion). -/
theorem c9_duplicate_start_overwrites (m : Registry) (ev1 ev2 : CallStartEvent)
    (t1 t2 : TimeMs) (hfresh : ∀ p ∈ m, p.1 ≠ "42")
    (h1 : ev1.uniqueid = some "42") (h2 : ev2.uniqueid = some "42") :
    (handleCallStarted (handleCallStarted m ev1 t1).1 ev2 t2).1 =
      m ++ [("42", (handleCallStarted (handleCallStarted m ev1 t1).1 ev2 t2).2)] ∧
    ((handleCallStarted (handleCallStarted m ev1 t1).1 ev2 t2).1.filter
        (fun p => p.1 == "42")).length = 1 ∧
    (handleCallStarted (handleCallStarted m ev1 t1).1 ev2 t2).2.startTime = t2 ∧
    (handleCallStarted (handleCallStarted m ev1 t1).1 ev2 t2).2.duration = 0 := by
  have hstart1 : (handleCallStarted m ev1 t1).1 =
      m ++ [("42", (handleCallStarted m ev1 t1).2)] := by
    simp only [handleCallStarted, h1, Option.getD_some]
    rw [mapSet_of_fresh m "42" _ hfresh]
  have hfilter : m.filter (fun p => p.1 == "42") = [] := by
    rw [List.filter_eq_nil_iff]
    intro p hp
    simpa using hfresh p hp
  have hreg : (handleCallStarted (handleCallStarted m ev1 t1).1 ev2 t2).1 =
      m ++ [("42", (handleCallStarted (handleCallStarted m ev1 t1).1 ev2 t2).2)] := by
    conv_lhs => rw [hstart1]
    simp only [handleCallStarted, h2, Option.getD_some]
    rw [mapSet_replace_last m "42" _ _ hfresh]
  refine ⟨hreg, ?_, ?_, ?_⟩
  · rw [hreg]
    simp [List.filter_append, hfilter]
  · simp [handleCallStarted]
  · simp [handleCallStarted]

/-- Witness for C9 at a concrete input: the same start event delivered twice
at t = 0 and t = 5000 over a one-entry registry. -/
theorem c9_duplicate_start_overwrites_witness :
    (handleCallStarted (handleCallStarted [("7", callInfo7)] startEvent42 0).1
        startEvent42 5000).1 =
      [("7", callInfo7)] ++
        [("42", (handleCallStarted (handleCallStarted [("7", callInfo7)]
            startEvent42 0).1 startEvent42 5000).2)] ∧
    ((handleCallStarted (handleCallStarted [("7", callInfo7)] startEvent42 0).1
        startEvent42 5000).1.filter (fun p => p.1 == "42")).length = 1 ∧
    (handleCallStarted (handleCallStarted [("7", callInfo7)] startEvent42 0).1
        startEvent42 5000).2.startTime = 5000 ∧
    (handleCallStarted (handleCallStarted [("7", callInfo7)] startEvent42 0).1
        startEvent42 5000).2.duration = 0 :=
  c9_duplicate_start_overwrites [("7", callInfo7)] startEvent42 startEvent42 0 5000
    (by decide) (by decide) (by decide)

/- ------------------------------------------------------------------ -/
/- C10                                                                 -/
/- ------------------------------------------------------------------ -/

/-- C10: the aggregated-stats computation is total on an empty queue list —
the average-wait divisor is `queues.length || 1` and the longest-wait
maximum includes `0`, so with zero queues the reported `averageWaitTime` and
`longestWaitTime` are both `0` (and `total` is `0`). -/
theorem c10_stats_total_on_empty_queues (agents : List Agent) (calls : List Call)
    (now : TimeMs) :
    (getCallCenterStats agents [] calls now).queues.averageWaitTime = 0 ∧
    (getCallCenterStats agents [] calls now).queues.longestWaitTime = 0 ∧
    (getCallCenterStats agents [] calls now).queues.total = 0 := by
  refine ⟨?_, rfl, rfl⟩
  simp [getCallCenterStats]

/- ------------------------------------------------------------------ -/
/- C1                                                                  -/
/- ------------------------------------------------------------------ -/

/-- C1 counterexample: on a tick at t = 100000 with registry entry "42"
(startTime 0, registry-tracked duration 100 s) and a fetched call with the
same id "42" and snapshot duration 5, the emitted `dashboard:calls` payload
is not the spec-described merge — the snapshot duration 5 is emitted
unchanged, not replaced by the registry-tracked 100. -/
theorem c1_counterexample :
    (broadcastUpdates registry42 alertStateZero healthyConnector 100000
        [] [] [fetchedCall42] [] [] []).calls ≠
      mergeRegistryDurationsSpec registry42 100000 [fetchedCall42] := by
  decide

/-- C1 amended: on every tick, before the call-list broadcast, every
*registry* entry has its duration recomputed as
`floor((now - startTime)/1000)`; the fetched call list itself is emitted
exactly as fetched — no registry duration is merged into it. -/
theorem c1_registry_refreshed_snapshot_unmerged (reg : Registry)
    (st : AlertState) (svc : ConnectorFlags) (now : TimeMs)
    (agents : List Agent) (queues : List Queue) (calls : List Call)
    (sa : List Agent) (sq : List Queue) (sc : List Call) :
    (broadcastUpdates reg st svc now agents queues calls sa sq sc).calls = calls ∧
    (broadcastUpdates reg st svc now agents queues calls sa sq sc).registry =
      reg.map (fun p =>
        (p.1, { p.2 with duration := Int.fdiv (now - p.2.startTime) 1000 })) :=
  ⟨rfl, rfl⟩

/- ------------------------------------------------------------------ -/
/- C3                                                                  -/
/- ------------------------------------------------------------------ -/

/-- C3: the alert evaluation produces output at most once per 30-second
window regardless of how often it is invoked (of any two invocations less
than 30 s apart, at most one emits), and concretely: with a queue at
`longestWait = 400` s (and nothing else alerting), a window-eligible first
evaluation emits exactly one warning alert (the long-wait rule) and a second
evaluation 5 s later emits nothing. -/
theorem c3_alert_debounce (st : AlertState) (t1 : TimeMs) (q : Queue)
    (svc : ConnectorFlags) (st2 : AlertState) (t t2 : TimeMs)
    (qs qs2 : List Queue) (ags ags2 : List Agent) (svc2 svc3 : ConnectorFlags)
    (helig : 30000 ≤ t1 - st.lastAlertCheck)
    (hlw : q.longestWait = 400) (hwc : q.waitingCalls ≤ 10)
    (hurl : svc.connectorUrlPresent = true) (hmock : svc.useMockData = false)
    (hwin : t2 - t < 30000) :
    (checkAndEmitAlerts st t1 [q] [] svc).1.map (fun a => (a.type, a.title)) =
      [("warning", "Long Wait Time")] ∧
    (checkAndEmitAlerts (checkAndEmitAlerts st t1 [q] [] svc).2 (t1 + 5000)
        [q] [] svc).1 = [] ∧
    ((checkAndEmitAlerts (checkAndEmitAlerts st2 t qs ags svc2).2 t2 qs2 ags2
        svc3).1 = [] ∨
      (checkAndEmitAlerts st2 t qs ags svc2).1 = []) := by
  have hg1 : ¬ (t1 - st.lastAlertCheck < 30000) := not_lt.mpr helig
  have hstate : (checkAndEmitAlerts st t1 [q] [] svc).2 =
      { lastAlertCheck := t1 } := by
    simp only [checkAndEmitAlerts, if_neg hg1]
  refine ⟨?_, ?_, ?_⟩
  · simp only [checkAndEmitAlerts, if_neg hg1]
    simp [computeAlerts, queueAlerts, availabilityAlerts, connectivityAlerts,
      countStatus, hlw, hurl, hmock, not_lt.mpr hwc]
  · have hcond : t1 + 5000 - t1 < 30000 := by linarith
    rw [hstate]
    simp only [checkAndEmitAlerts]
    rw [if_pos hcond]
  · by_cases hfst : t - st2.lastAlertCheck < 30000
    · right
      simp only [checkAndEmitAlerts, if_pos hfst]
    · left
      have hs2 : (checkAndEmitAlerts st2 t qs ags svc2).2 =
          { lastAlertCheck := t } := by
        simp only [checkAndEmitAlerts, if_neg hfst]
      rw [hs2]
      simp only [checkAndEmitAlerts]
      rw [if_pos (show t2 - t < 30000 from hwin)]

/-- Witness for C3 at concrete inputs: evaluations at t = 30000 and
t = 35000 (5 s apart) over a queue with longestWait 400, plus a concrete
pair of invocations 1 s apart for the general de-bounce disjunct. -/
theorem c3_alert_debounce_witness :
    (checkAndEmitAlerts alertStateZero 30000 [queueLongWait400] []
        healthyConnector).1.map (fun a => (a.type, a.title)) =
      [("warning", "Long Wait Time")] ∧
    (checkAndEmitAlerts (checkAndEmitAlerts alertStateZero 30000
        [queueLongWait400] [] healthyConnector).2 (30000 + 5000)
        [queueLongWait400] [] healthyConnector).1 = [] ∧
    ((checkAndEmitAlerts (checkAndEmitAlerts alertStateZero 30000
        [queueLongWait400] [] healthyConnector).2 31000 [] []
        healthyConnector).1 = [] ∨
      (checkAndEmitAlerts alertStateZero 30000 [queueLongWait400] []
          healthyConnector).1 = []) :=
  c3_alert_debounce alertStateZero 30000 queueLongWait400 healthyConnector
    alertStateZero 30000 31000 [queueLongWait400] [] [] [] healthyConnector
    healthyConnector (by decide) (by decide) (by decide) (by decide) (by decide)
    (by decide)

/- ------------------------------------------------------------------ -/
/- C7                                                                  -/
/- ------------------------------------------------------------------ -/

/-- The high-volume count distributes over alert-list concatenation. -/
theorem countHighVolume_append (l1 l2 : List Alert) :
    countHighVolume (l1 ++ l2) = countHighVolume l1 + countHighVolume l2 := by
  unfold countHighVolume
  rw [List.filter_append, List.length_append]

/-- The availability rule never contributes a high-volume alert. -/
theorem countHighVolume_availability (now : TimeMs) (ags : List Agent) :
    countHighVolume (availabilityAlerts now ags) = 0 := by
  unfold countHighVolume availabilityAlerts
  dsimp only
  split
  · rfl
  · rfl

/-- The connectivity rule never contributes a high-volume alert. -/
theorem countHighVolume_connectivity (now : TimeMs) (svc : ConnectorFlags) :
    countHighVolume (connectivityAlerts now svc) = 0 := by
  unfold countHighVolume connectivityAlerts
  split
  · rfl
  · rfl

/-- A single queue contributes exactly one high-volume alert when and only
when its waiting-call count exceeds 10. -/
theorem countHighVolume_queueAlerts (now : TimeMs) (q : Queue) :
    countHighVolume (queueAlerts now q) =
      (if 10 < q.waitingCalls then 1 else 0) := by
  unfold countHighVolume queueAlerts
  rw [List.filter_append, List.length_append]
  split
  · split
    · rfl
    · rfl
  · split
    · rfl
    · rfl

/-- The full (window-eligible) rule run over one queue yields a high-volume
count governed only by that queue's threshold test. -/
theorem countHighVolume_computeAlerts_single (now : TimeMs) (q : Queue)
    (ags : List Agent) (svc : ConnectorFlags) :
    countHighVolume (computeAlerts now [q] ags svc) =
      (if 10 < q.waitingCalls then 1 else 0) := by
  unfold computeAlerts
  rw [countHighVolume_append, countHighVolume_append,
    countHighVolume_availability, countHighVolume_connectivity]
  simp only [List.flatMap_cons, List.flatMap_nil, List.append_nil]
  rw [countHighVolume_queueAlerts]
  omega

/-- C7: threshold boundary — in window-eligible evaluations, a queue with
`waitingCalls = 10` produces no "High Queue Volume" alert while a queue with
`waitingCalls = 11` produces exactly one. -/
theorem c7_threshold_boundary (st1 st2 : AlertState) (t1 t2 : TimeMs)
    (q10 q11 : Queue) (ags1 ags2 : List Agent) (svc1 svc2 : ConnectorFlags)
    (he1 : 30000 ≤ t1 - st1.lastAlertCheck)
    (he2 : 30000 ≤ t2 - st2.lastAlertCheck)
    (h10 : q10.waitingCalls = 10) (h11 : q11.waitingCalls = 11) :
    countHighVolume (checkAndEmitAlerts st1 t1 [q10] ags1 svc1).1 = 0 ∧
    countHighVolume (checkAndEmitAlerts st2 t2 [q11] ags2 svc2).1 = 1 := by
  constructor
  · simp only [checkAndEmitAlerts, if_neg (not_lt.mpr he1)]
    rw [countHighVolume_computeAlerts_single, h10]
    norm_num
  · simp only [checkAndEmitAlerts, if_neg (not_lt.mpr he2)]
    rw [countHighVolume_computeAlerts_single, h11]
    norm_num

/-- Witness for C7 at concrete inputs: window-eligible evaluations of the
boundary queues with 10 and 11 waiting calls. -/
theorem c7_threshold_boundary_witness :
    countHighVolume (checkAndEmitAlerts alertStateZero 30000 [queueWaiting10]
        [] healthyConnector).1 = 0 ∧
    countHighVolume (checkAndEmitAlerts alertStateZero 30000 [queueWaiting11]
        [] healthyConnector).1 = 1 :=
  c7_threshold_boundary alertStateZero alertStateZero 30000 30000
    queueWaiting10 queueWaiting11 [] [] healthyConnector healthyConnector
    (by decide) (by decide) (by decide) (by decide)

/- ------------------------------------------------------------------ -/
/- C5                                                                  -/
/- ------------------------------------------------------------------ -/

/-- C5 counterexample: a tick whose fetched queue has all agent-derived
counts zero, while an available agent belongs to it, still emits that queue
with the zero counts — the emitted `dashboard:queues` payload is not the
recomputed queue list (whose agent count would be 1). -/
theorem c5_counterexample :
    (broadcastUpdates [] alertStateZero healthyConnector 0 [agentQ1]
        [queueZeroCounts] [] [agentQ1] [queueZeroCounts] []).queues ≠
      [updateQueueAgentCounts [agentQ1] queueZeroCounts] ∧
    (updateQueueAgentCounts [agentQ1] queueZeroCounts).agents = 1 := by
  constructor
  · decide
  · decide

/-- C5 amended: the zero-guarded recomputation of agent-derived counts is
applied by the synchronous `/api/queues` route (and, vacuously for its
output, inside `getCallCenterStats`), with each zero-valued count replaced
by the membership-filtered figure — but the queue list broadcast on each
tick is emitted exactly as fetched, without the recomputation. -/
theorem c5_queue_counts_recompute_location (agents : List Agent)
    (queues : List Queue) (q : Queue) (reg : Registry) (st : AlertState)
    (svc : ConnectorFlags) (now : TimeMs) (fa : List Agent) (fq : List Queue)
    (fc : List Call) (sa : List Agent) (sq : List Queue) (sc : List Call) :
    apiQueues agents queues = queues.map (updateQueueAgentCounts agents) ∧
    (updateQueueAgentCounts agents q).agents =
      (if q.agents = 0 then ((queueMemberAgents agents q).length : Int)
       else q.agents) ∧
    (updateQueueAgentCounts agents q).agentsAvailable =
      (if q.agentsAvailable = 0 then
        (((queueMemberAgents agents q).filter
            (fun a => a.status == "available")).length : Int)
       else q.agentsAvailable) ∧
    (updateQueueAgentCounts agents q).agentsOnCall =
      (if q.agentsOnCall = 0 then
        (((queueMemberAgents agents q).filter
            (fun a => a.currentCall.isSome)).length : Int)
       else q.agentsOnCall) ∧
    (broadcastUpdates reg st svc now fa fq fc sa sq sc).queues = fq := by
  refine ⟨rfl, ?_, ?_, ?_, rfl⟩
  · unfold updateQueueAgentCounts
    split_ifs <;> rfl
  · unfold updateQueueAgentCounts
    split_ifs <;> rfl
  · unfold updateQueueAgentCounts
    split_ifs <;> rfl

/- ------------------------------------------------------------------ -/
/- Mock-data lemmas.                                                   -/
/- ------------------------------------------------------------------ -/

/-- The numerator/denominator computation of `jsFloorMul` agrees with the
mathematical floor of `r * k`, documenting its fidelity to
`Math.floor(r * k)`. -/
theorem jsFloorMul_eq_floor (r : ℚ) (k : ℕ) :
    jsFloorMul r (k : Int) = ⌊r * (k : ℚ)⌋ := by
  have hden : ((r.den : ℚ)) ≠ 0 := by
    exact_mod_cast r.den_nz
  have hnum : ((r.num : ℚ)) = r * (r.den : ℚ) :=
    (div_eq_iff hden).mp (Rat.num_div_den r)
  have hq : ((r.num * (k : Int) : Int) : ℚ) / ((r.den : ℕ) : ℚ) = r * (k : ℚ) := by
    push_cast
    field_simp
    rw [hnum]
    ring
  rw [show r * (k : ℚ) = ((r.num * (k : Int) : Int) : ℚ) / ((r.den : ℕ) : ℚ) from
    hq.symm]
  rw [Rat.floor_intCast_div_natCast]
  unfold jsFloorMul
  rw [Int.fdiv_eq_ediv _ (Int.natCast_nonneg _)]

/-- For a draw in [0, 1) and a positive factor, `jsFloorMul` lands in
[0, k). -/
theorem jsFloorMul_nonneg_lt (r : ℚ) (k : ℕ) (h0 : 0 ≤ r) (h1 : r < 1)
    (hk : 0 < k) :
    0 ≤ jsFloorMul r (k : Int) ∧ jsFloorMul r (k : Int) < (k : Int) := by
  rw [jsFloorMul_eq_floor]
  have hkq : (0 : ℚ) < (k : ℚ) := by exact_mod_cast hk
  constructor
  · exact Int.floor_nonneg.mpr (mul_nonneg h0 (le_of_lt hkq))
  · apply Int.floor_lt.mpr
    push_cast
    nlinarith

/-- The mock-agent generator yields one agent per (index, name) pair,
whatever the stream position. -/
theorem mkMockAgents_length (s : RandS) (now : TimeMs) :
    ∀ (l : List (Nat × String)) (ix : Nat), (mkMockAgents s now l ix).length = l.length := by
  intro l
  induction l with
  | nil => intro ix; rfl
  | cons p rest ih =>
    intro ix
    obtain ⟨i, name⟩ := p
    simp [mkMockAgents, ih]

/-- The name of each generated mock agent is the roster name of its pair,
independent of the random draws. -/
theorem mkMockAgents_map_name (s : RandS) (now : TimeMs) :
    ∀ (l : List (Nat × String)) (ix : Nat),
      (mkMockAgents s now l ix).map (fun a => a.name) = l.map Prod.snd := by
  intro l
  induction l with
  | nil => intro ix; rfl
  | cons p rest ih =>
    intro ix
    obtain ⟨i, name⟩ := p
    simp [mkMockAgents, ih]

/-- `getMockAgents` always returns the fixed 12-name roster, in order. -/
theorem getMockAgents_map_name (s : RandS) (now : TimeMs) :
    (getMockAgents s now).map (fun a => a.name) = mockNames := by
  rw [getMockAgents, mkMockAgents_map_name]
  exact List.enum_map_snd mockNames

/-- `getMockAgents` always returns exactly 12 agents. -/
theorem getMockAgents_length (s : RandS) (now : TimeMs) :
    (getMockAgents s now).length = 12 := by
  rw [getMockAgents, mkMockAgents_length]
  rfl

/-- The mock-call loop yields exactly its iteration count, whatever the
index and stream position. -/
theorem mkMockCalls_length (s : RandS) (now : TimeMs) :
    ∀ (n i ix : Nat), (mkMockCalls s now n i ix).length = n := by
  intro n
  induction n with
  | zero => intro i ix; rfl
  | succ k ih => intro i ix; simp [mkMockCalls, ih]

/-- For a valid stream, `getMockCalls` returns between 2 and 9 calls
(`floor(random()*8) + 2`) — in particular never an empty list. -/
theorem getMockCalls_length_bounds (s : RandS) (now : TimeMs)
    (hs : ValidRand s) :
    2 ≤ (getMockCalls s now).length ∧ (getMockCalls s now).length ≤ 9 := by
  have hb := jsFloorMul_nonneg_lt (s 0) 8 (hs 0).1 (hs 0).2 (by norm_num)
  norm_num at hb
  have hlen : (getMockCalls s now).length = (jsFloorMul (s 0) 8).toNat + 2 := by
    simp only [getMockCalls]
    exact mkMockCalls_length s now _ 0 1
  rw [hlen]
  have h7 : (jsFloorMul (s 0) 8).toNat ≤ 7 := Int.toNat_le.mpr (by omega)
  omega

/- ------------------------------------------------------------------ -/
/- C4                                                                  -/
/- ------------------------------------------------------------------ -/

/-- C4 counterexample: the synthetic fallback dataset is not deterministic —
two executions whose ambient `Math.random()` draws differ (both streams
valid) return different agent datasets (already the statuses differ:
all-zero draws give every agent status "available", all-1/2 draws give
"away"), refuting that any two invocations return the same dataset. -/
theorem c4_counterexample :
    ¬ (∀ (s1 s2 : RandS) (now : TimeMs), ValidRand s1 → ValidRand s2 →
        getMockAgents s1 now = getMockAgents s2 now ∧
        getMockCalls s1 now = getMockCalls s2 now) := by
  intro h
  have hv1 : ValidRand (fun _ => 0) := by
    intro i
    constructor <;> norm_num
  have hv2 : ValidRand (fun _ => mkRat 1 2) := by
    intro i
    rw [Rat.mkRat_eq_div]
    constructor <;> norm_num
  have heq := (h (fun _ => 0) (fun _ => mkRat 1 2) 0 hv1 hv2).1
  have hmap := congrArg (List.map (fun a => a.status)) heq
  exact absurd hmap (by decide)

/-- C4 amended: the synthetic fallback has a fixed shape but randomized
contents — the agent roster is always the same 12 names in order (statuses
drawn at random rather than cycling), the four mock queues have fixed
identities, and the synthetic call count is a pseudo-random value between 2
and 9; invocations with different draws can differ. -/
theorem c4_fixed_shape_random_content (s : RandS) (now : TimeMs)
    (hs : ValidRand s) :
    (getMockAgents s now).map (fun a => a.name) = mockNames ∧
    (getMockAgents s now).length = 12 ∧
    (getMockQueues s).map (fun q => q.id) =
      ["queue_1", "queue_2", "queue_3", "queue_4"] ∧
    (getMockQueues s).map (fun q => q.name) = mockDepartments ∧
    2 ≤ (getMockCalls s now).length ∧ (getMockCalls s now).length ≤ 9 :=
  ⟨getMockAgents_map_name s now, getMockAgents_length s now, rfl, rfl,
   (getMockCalls_length_bounds s now hs).1,
   (getMockCalls_length_bounds s now hs).2⟩

/-- Witness for the amended C4 at the all-zero stream. -/
theorem c4_fixed_shape_random_content_witness :
    (getMockAgents (fun _ => 0) 0).map (fun a => a.name) = mockNames ∧
    (getMockAgents (fun _ => 0) 0).length = 12 ∧
    (getMockQueues (fun _ => 0)).map (fun q => q.id) =
      ["queue_1", "queue_2", "queue_3", "queue_4"] ∧
    (getMockQueues (fun _ => 0)).map (fun q => q.name) = mockDepartments ∧
    2 ≤ (getMockCalls (fun _ => 0) 0).length ∧
    (getMockCalls (fun _ => 0) 0).length ≤ 9 :=
  c4_fixed_shape_random_content (fun _ => 0) 0
    (by intro i; constructor <;> norm_num)

/- ------------------------------------------------------------------ -/
/- C2                                                                  -/
/- ------------------------------------------------------------------ -/

/-- C2 counterexample: a successful `/api/calls` response with an empty
payload is returned as the empty list — `getActiveCalls` has no
empty-payload fallback, unlike `getAgents`/`getQueues`, even though its
failure fallback `getMockCalls` is never empty. -/
theorem c2_counterexample :
    getActiveCalls false (Except.ok []) (fun _ => 0) 0 = [] ∧
    2 ≤ (getMockCalls (fun _ => 0) 0).length := by
  constructor
  · rfl
  · decide

/-- C2 amended: for `fetchAgents` and `fetchQueues` an empty successful
payload is treated identically to an unreachable provider (both return the
non-empty mock dataset: 12 agents, 4 queues); `fetchCalls` falls back to the
(non-empty, 2–9 call) mock dataset only on request failure and returns an
empty successful payload as the empty list. -/
theorem c2_empty_fallback_except_calls (s : RandS) (reg : Registry)
    (now : TimeMs) (hs : ValidRand s) :
    getAgents false (Except.error ()) reg s now = getMockAgents s now ∧
    getAgents false (Except.ok []) reg s now = getMockAgents s now ∧
    (getMockAgents s now).length = 12 ∧
    getQueues false (Except.error ()) s = getMockQueues s ∧
    getQueues false (Except.ok []) s = getMockQueues s ∧
    (getMockQueues s).length = 4 ∧
    getActiveCalls false (Except.error ()) s now = getMockCalls s now ∧
    getActiveCalls false (Except.ok []) s now = [] ∧
    2 ≤ (getMockCalls s now).length ∧ (getMockCalls s now).length ≤ 9 :=
  ⟨rfl, rfl, getMockAgents_length s now, rfl, rfl, rfl, rfl, rfl,
   (getMockCalls_length_bounds s now hs).1,
   (getMockCalls_length_bounds s now hs).2⟩

/-- Witness for the amended C2 at the all-zero stream and empty registry. -/
theorem c2_empty_fallback_except_calls_witness :
    getAgents false (Except.error ()) [] (fun _ => 0) 0 =
      getMockAgents (fun _ => 0) 0 ∧
    getAgents false (Except.ok []) [] (fun _ => 0) 0 =
      getMockAgents (fun _ => 0) 0 ∧
    (getMockAgents (fun _ => 0) 0).length = 12 ∧
    getQueues false (Except.error ()) (fun _ => 0) = getMockQueues (fun _ => 0) ∧
    getQueues false (Except.ok []) (fun _ => 0) = getMockQueues (fun _ => 0) ∧
    (getMockQueues (fun _ => 0)).length = 4 ∧
    getActiveCalls false (Except.error ()) (fun _ => 0) 0 =
      getMockCalls (fun _ => 0) 0 ∧
    getActiveCalls false (Except.ok []) (fun _ => 0) 0 = [] ∧
    2 ≤ (getMockCalls (fun _ => 0) 0).length ∧
    (getMockCalls (fun _ => 0) 0).length ≤ 9 :=
  c2_empty_fallback_except_calls (fun _ => 0) [] 0
    (by intro i; constructor <;> norm_num)

end Dashboard
